import Mathlib

/-!
Shallow embedding of the Exif/TIFF decoder of `int128/exif-study`
(`main.go`): the JPEG/APP1 segment reader (`parseAPP1`), the TIFF
header reader and IFD graph walker (`parseTIFF`), the directory
decoder (`parseIFD`), the linked-sub-directory lookup
(`IFD.FindLinkedIFD`) and the entry/value resolver
(`parseIFDElement`, `IFDElement.Length`).

Byte buffers are `List Nat` (each element a byte value).  Go's
runtime behaviour is made explicit:

* a Go slice expression `b[lo:hi]` panics unless `lo ≤ hi ≤ len(b)`
  (every buffer in this program has `cap = len`); this is `goSlice`,
  and a panic is the `GoErr.panic` outcome, distinct from the
  `error` values the program returns (`GoErr.errorf`);
* the index expressions `2 + elementCount*12` and
  `2 + elementCount*12 + 4` in `parseIFD` are computed on the
  `uint16` element count, hence reduced modulo 2^16
  (`ifdTrailerLo`, `ifdTrailerHi`, `ifdValuesOffset`);
* in `parseIFDElement` the slice bound `offset + uint32(e.Length())`
  is `uint32` arithmetic: the length is truncated modulo 2^32 and
  the sum wraps modulo 2^32;
* `readBytes` consumes from an in-memory stream and fails (with a
  Go `error`, not a panic) when fewer bytes remain than requested;
  the `uint16` subtraction `app1Length - 10` wraps modulo 2^16.
-/

/-- A byte buffer: a list of byte values. -/
abbrev Bytes := List Nat

deriving instance DecidableEq for Except

/-- Outcome of a fallible Go computation: a returned `error` value
(carrying its message) or a runtime panic. -/
inductive GoErr : Type
  | errorf (msg : String) : GoErr
  | panic : GoErr
deriving DecidableEq

/-- `binary.ByteOrder`: big endian (`MM`) or little endian (`II`). -/
inductive ByteOrder : Type
  | big : ByteOrder
  | little : ByteOrder
deriving DecidableEq

/-- The Go slice expression `b[lo:hi]`: the elements at positions
`lo, …, hi-1` when `lo ≤ hi ≤ len(b)`, otherwise a runtime panic. -/
def goSlice (b : Bytes) (lo hi : Nat) : Except GoErr Bytes :=
  if lo ≤ hi ∧ hi ≤ b.length then .ok ((b.take hi).drop lo) else .error .panic

/-- The Go slice expression `b[lo:]`: the suffix from position `lo`
when `lo ≤ len(b)`, otherwise a runtime panic. -/
def goTail (b : Bytes) (lo : Nat) : Except GoErr Bytes :=
  if lo ≤ b.length then .ok (b.drop lo) else .error .panic

/-- `endian.Uint16(b)`: the 16-bit value of the first two bytes. -/
def u16 (e : ByteOrder) (b : Bytes) : Nat :=
  match e with
  | .big => b.getD 0 0 * 256 + b.getD 1 0
  | .little => b.getD 1 0 * 256 + b.getD 0 0

/-- `endian.Uint32(b)`: the 32-bit value of the first four bytes. -/
def u32 (e : ByteOrder) (b : Bytes) : Nat :=
  match e with
  | .big =>
      b.getD 0 0 * 16777216 + b.getD 1 0 * 65536 + b.getD 2 0 * 256 + b.getD 3 0
  | .little =>
      b.getD 3 0 * 16777216 + b.getD 2 0 * 65536 + b.getD 1 0 * 256 + b.getD 0 0

/-- One parsed 12-byte directory entry (`IFDElement` in `main.go`):
tag, type code, count, the resolved value bytes, and the raw 4-byte
value-or-offset field (`b[8:12]` of the entry). -/
structure IFDElement : Type where
  Tag : Nat
  /-- the Go field `Type` (a Lean keyword, hence `Typ` here). -/
  Typ : Nat
  Count : Nat
  Value : Bytes
  rawValue : Bytes
deriving DecidableEq

/-- The value-length switch of `IFDElement.Length` in `main.go`:
type 3 → `count*2`, 4 → `count*4`, 5 → `count*8`, 9 → `count*8`,
10 → `count*16`, and every other type code → `count`. -/
def elemLength (ty count : Nat) : Nat :=
  if ty = 3 then count * 2
  else if ty = 4 then count * 4
  else if ty = 5 then count * 8
  else if ty = 9 then count * 8
  else if ty = 10 then count * 16
  else count

/-- `func (e *IFDElement) Length() int`. -/
def IFDElement.Length (e : IFDElement) : Nat :=
  elemLength e.Typ e.Count

/-- `func (e *IFDElement) Uint32(endian)`: the raw 4-byte field read
as a `uint32` offset. -/
def IFDElement.Uint32 (e : IFDElement) (endian : ByteOrder) : Nat :=
  u32 endian e.rawValue

/-- `parseIFDElement(b, ifd, endian)` from `main.go`: check the slot
is 12 bytes, decode tag/type/count and the raw field, and resolve the
value: inline (the raw field itself) when the computed length is at
most 4, otherwise the slice `ifd[offset : offset+uint32(length)]`
(with `uint32` wrap-around on both the truncated length and the sum),
which panics when out of range. -/
def parseIFDElement (b : Bytes) (ifd : Bytes) (endian : ByteOrder) :
    Except GoErr IFDElement :=
  if b.length ≠ 12 then
    .error (.errorf "IFDElement expects 12 bytes")
  else
    let tag := u16 endian (b.take 2)
    let ty := u16 endian ((b.drop 2).take 2)
    let count := u32 endian ((b.drop 4).take 4)
    let rawValue := (b.drop 8).take 4
    let len := elemLength ty count
    if 4 < len then
      let offset := u32 endian rawValue
      match goSlice ifd offset ((offset + len % 4294967296) % 4294967296) with
      | .ok v => .ok ⟨tag, ty, count, v, rawValue⟩
      | .error _ => .error .panic
    else
      .ok ⟨tag, ty, count, rawValue, rawValue⟩

/-- The low index `2 + elementCount*12` of the trailer slice in
`parseIFD`, computed in `uint16` arithmetic on the element count. -/
def ifdTrailerLo (c : Nat) : Nat :=
  (2 + c * 12) % 65536

/-- The high index `2 + elementCount*12 + 4` of the trailer slice in
`parseIFD`, computed in `uint16` arithmetic on the element count. -/
def ifdTrailerHi (c : Nat) : Nat :=
  (2 + c * 12 + 4) % 65536

/-- `valuesOffset := int(2 + elementCount*12 + 4)` in `parseIFD`,
computed in `uint16` arithmetic on the element count before the
conversion to `int`. -/
def ifdValuesOffset (c : Nat) : Nat :=
  (2 + c * 12 + 4) % 65536

/-- One parsed directory (`IFD` in `main.go`): the decoded entries in
on-disk order and the raw bytes of the values region. -/
structure IFD : Type where
  Elements : List IFDElement
  rawValues : Bytes
deriving DecidableEq

/-- The element loop of `parseIFD`: for each index `i` the slot is
`b[2+i*12 : 2+i*12+12]` (the loop offset is `int` arithmetic, no
wrap) and is parsed by `parseIFDElement` with the whole directory
buffer `b`; a panic propagates, a returned element error is replaced
by the loop's own `Could not parse IFD element` error. -/
def parseIFDElems (b : Bytes) (endian : ByteOrder) :
    List Nat → Except GoErr (List IFDElement)
  | [] => .ok []
  | i :: rest =>
    match goSlice b (2 + i * 12) (2 + i * 12 + 12) with
    | .error e => .error e
    | .ok slot =>
      match parseIFDElement slot b endian with
      | .error .panic => .error .panic
      | .error (.errorf _) => .error (.errorf "Could not parse IFD element")
      | .ok e =>
        match parseIFDElems b endian rest with
        | .error err => .error err
        | .ok es => .ok (e :: es)

/-- `parseIFD(b, endian)` from `main.go`: read the `uint16` element
count at `b[0:2]`, read the `uint32` values length at the trailer
slice `b[2+c*12 : 2+c*12+4]` (`uint16` index arithmetic), slice the
values region `b[valuesOffset : valuesOffset+valuesLength]`, then
parse the `c` entry slots.  No bound is checked before any slice: an
out-of-range slice panics. -/
def parseIFD (b : Bytes) (endian : ByteOrder) : Except GoErr IFD :=
  match goSlice b 0 2 with
  | .error e => .error e
  | .ok cs =>
    let c := u16 endian cs
    match goSlice b (ifdTrailerLo c) (ifdTrailerHi c) with
    | .error e => .error e
    | .ok tr =>
      let valuesLength := u32 endian tr
      match goSlice b (ifdValuesOffset c) (ifdValuesOffset c + valuesLength) with
      | .error e => .error e
      | .ok rawValues =>
        match parseIFDElems b endian (List.range c) with
        | .error e => .error e
        | .ok elems => .ok ⟨elems, rawValues⟩

/-- The Go call `parseIFD(b[off:], endian)`: slice the suffix (which
panics when `off > len(b)`) and parse a directory there. -/
def parseIFDAt (b : Bytes) (off : Nat) (endian : ByteOrder) :
    Except GoErr IFD :=
  match goTail b off with
  | .error e => .error e
  | .ok t => parseIFD t endian

/-- The loop body of `IFD.FindLinkedIFD`: scan the elements in order;
at the first element whose tag matches, read its raw field as a
`uint32` offset and parse a directory at `b[offset:]`; when no
element matches, return `nil` with no error. -/
def findLinkedLoop (es : List IFDElement) (tag : Nat) (b : Bytes)
    (endian : ByteOrder) : Except GoErr (Option IFD) :=
  match es with
  | [] => .ok none
  | e :: rest =>
    if e.Tag = tag then
      match parseIFDAt b (e.Uint32 endian) endian with
      | .error err => .error err
      | .ok d => .ok (some d)
    else
      findLinkedLoop rest tag b endian

/-- `func (d *IFD) FindLinkedIFD(tag, b, endian)` from `main.go`. -/
def IFD.FindLinkedIFD (d : IFD) (tag : Nat) (b : Bytes)
    (endian : ByteOrder) : Except GoErr (Option IFD) :=
  findLinkedLoop d.Elements tag b endian

/-- The decoded APP1 segment (`APP1` in `main.go`).  `IFD0` and
`IFD1` are plain directories because `parseTIFF` always parses both
on success; the three linked directories are optional because
`FindLinkedIFD` returns `nil` when the tag is absent. -/
structure APP1 : Type where
  Endian : ByteOrder
  rawPreIFD : Bytes
  IFD0 : IFD
  ExifIFD : Option IFD
  GPSIFD : Option IFD
  InteroperabilityIFD : Option IFD
  IFD1 : IFD
deriving DecidableEq

/-- The Go pattern `if err != nil { return fmt.Errorf("pre: %s", err) }`:
a returned error is wrapped with a prefix, a success passes through,
and a panic propagates unwrapped. -/
def wrapErr (pre : String) : Except GoErr α → Except GoErr α
  | .error (.errorf m) => .error (.errorf (pre ++ m))
  | x => x

/-- The body of `parseTIFF` after the byte order has been selected:
check the version word `b[2:4]` equals `0x002a`, read the first-IFD
offset from `b[4:8]`, keep `rawPreIFD = b[8:ifdOffset]`, parse `IFD0`
at `b[ifdOffset:]`, look up the Exif, GPS and Interoperability
directories by tag, and parse `IFD1` at
`b[ifdOffset+len(IFD0.rawValues):]` — unconditionally, from the
length of the values region, not from a next-directory offset. -/
def parseTIFFWith (b : Bytes) (endian : ByteOrder) : Except GoErr APP1 :=
  match goSlice b 2 4 with
  | .error e => .error e
  | .ok vs =>
    if u16 endian vs ≠ 0x002a then .error (.errorf "Invalid TIFF version")
    else
      match goSlice b 4 8 with
      | .error e => .error e
      | .ok os =>
        match goSlice b 8 (u32 endian os) with
        | .error e => .error e
        | .ok rawPreIFD =>
          match wrapErr "Could not parse 0th IFD: "
              (parseIFDAt b (u32 endian os) endian) with
          | .error e => .error e
          | .ok ifd0 =>
            match wrapErr "Could not parse Exif IFD: "
                (ifd0.FindLinkedIFD 0x8769 b endian) with
            | .error e => .error e
            | .ok exif =>
              match wrapErr "Could not parse GPS IFD: "
                  (ifd0.FindLinkedIFD 0x8825 b endian) with
              | .error e => .error e
              | .ok gps =>
                match wrapErr "Could not parse Interoperability IFD: "
                    (ifd0.FindLinkedIFD 0xA005 b endian) with
                | .error e => .error e
                | .ok inter =>
                  match wrapErr "Could not parse 1st IFD: "
                      (parseIFDAt b (u32 endian os + ifd0.rawValues.length)
                        endian) with
                  | .error e => .error e
                  | .ok ifd1 =>
                    .ok ⟨endian, rawPreIFD, ifd0, exif, gps, inter, ifd1⟩

/-- `parseTIFF(b)` from `main.go`: detect the byte order from the
endian marker `b[0:2]` (`MM` big endian, `II` little endian, anything
else an error) and run the rest of the TIFF walk with it. -/
def parseTIFF (b : Bytes) : Except GoErr APP1 :=
  match goSlice b 0 2 with
  | .error e => .error e
  | .ok hd =>
    if hd = [0x4d, 0x4d] then parseTIFFWith b .big
    else if hd = [0x49, 0x49] then parseTIFFWith b .little
    else .error (.errorf "Invalid endian")

/-- `readBytes(r, n)` on an in-memory stream: the first `n` bytes and
the remaining stream, or a Go `error` when fewer than `n` remain. -/
def readBytes (n : Nat) (s : Bytes) : Except GoErr (Bytes × Bytes) :=
  if n ≤ s.length then .ok (s.take n, s.drop n) else .error (.errorf "Could not read")

/-- The byte list `{0x45, 0x78, 0x69, 0x66, 0x00, 0x00}` ("Exif00"). -/
def exifMarker : Bytes := [0x45, 0x78, 0x69, 0x66, 0x00, 0x00]

/-- The reading phase of `parseAPP1` from `main.go`: consume the APP1
marker `FF E1`, the 2-byte big-endian segment length, the 6-byte Exif
identifier, and then `tiffLength = app1Length - 10` further bytes
(`uint16` subtraction, wrapping modulo 2^16); the result is the byte
buffer handed to `parseTIFF`. -/
def parseAPP1Payload (s : Bytes) : Except GoErr Bytes :=
  match readBytes 2 s with
  | .error e => .error e
  | .ok (m, s1) =>
    if m ≠ [0xff, 0xe1] then .error (.errorf "APP1 marker not found")
    else
      match readBytes 2 s1 with
      | .error e => .error e
      | .ok (lb, s2) =>
        let app1Length := u16 .big lb
        let tiffLength := (app1Length + 65536 - 10) % 65536
        match readBytes 6 s2 with
        | .error e => .error e
        | .ok (em, s3) =>
          if em ≠ exifMarker then .error (.errorf "Exif marker not found")
          else
            match readBytes tiffLength s3 with
            | .error e => .error e
            | .ok (tb, _) => .ok tb

/-- `parseAPP1(r)` from `main.go`: read the segment bytes and parse
the TIFF payload. -/
def parseAPP1 (s : Bytes) : Except GoErr APP1 :=
  match parseAPP1Payload s with
  | .error e => .error e
  | .ok tb => wrapErr "Could not parse TIFF: " (parseTIFF tb)

/-! ### Concrete fixtures and helper lemmas -/

/-- A minimal well-formed little-endian TIFF buffer: header with
first-IFD offset 8, a directory at offset 8 with entry count 0, and a
trailer word of 0. -/
def buf14 : Bytes := [0x49, 0x49, 0x2a, 0x00, 8, 0, 0, 0, 0, 0, 0, 0, 0, 0]

/-- The decode of `buf14`: empty primary directory, no linked
directories, and a (re-)decoded `IFD1`. -/
def app1_14 : APP1 := ⟨.little, [], ⟨[], []⟩, none, none, none, ⟨[], []⟩⟩

theorem wrapErr_ok {α : Type} (pre : String) (x : Except GoErr α) (v : α) :
    wrapErr pre x = .ok v ↔ x = .ok v := by
  cases x with
  | ok a => simp [wrapErr]
  | error e => cases e <;> simp [wrapErr]

theorem goSlice_oob_panic (b : Bytes) (off n : Nat) (hn : n < 4294967296)
    (h : b.length < off + n) :
    goSlice b off ((off + n) % 4294967296) = .error .panic := by
  unfold goSlice
  rw [if_neg]
  rintro ⟨h1, h2⟩
  omega

theorem parseTIFFWith_ok_cases (b : Bytes) (endian : ByteOrder) (s : APP1)
    (h : parseTIFFWith b endian = .ok s) :
    s.Endian = endian ∧
    (∃ os, goSlice b 4 8 = .ok os ∧
        parseIFDAt b (u32 endian os + s.IFD0.rawValues.length) endian
          = .ok s.IFD1) ∧
    s.IFD0.FindLinkedIFD 0x8769 b endian = .ok s.ExifIFD ∧
    s.IFD0.FindLinkedIFD 0x8825 b endian = .ok s.GPSIFD ∧
    s.IFD0.FindLinkedIFD 0xA005 b endian = .ok s.InteroperabilityIFD := by
  unfold parseTIFFWith at h
  cases h24 : goSlice b 2 4 with
  | error e => rw [h24] at h; exact Except.noConfusion h
  | ok vs =>
  rw [h24] at h
  dsimp only at h
  by_cases hv : u16 endian vs ≠ 0x002a
  · rw [if_pos hv] at h; exact Except.noConfusion h
  rw [if_neg hv] at h
  cases h48 : goSlice b 4 8 with
  | error e => rw [h48] at h; exact Except.noConfusion h
  | ok os =>
  rw [h48] at h
  dsimp only at h
  cases hpre : goSlice b 8 (u32 endian os) with
  | error e => rw [hpre] at h; exact Except.noConfusion h
  | ok rawPreIFD =>
  rw [hpre] at h
  dsimp only at h
  cases h0 : wrapErr "Could not parse 0th IFD: "
      (parseIFDAt b (u32 endian os) endian) with
  | error e => rw [h0] at h; exact Except.noConfusion h
  | ok ifd0 =>
  rw [h0] at h
  dsimp only at h
  cases hex : wrapErr "Could not parse Exif IFD: "
      (ifd0.FindLinkedIFD 0x8769 b endian) with
  | error e => rw [hex] at h; exact Except.noConfusion h
  | ok exif =>
  rw [hex] at h
  dsimp only at h
  cases hgp : wrapErr "Could not parse GPS IFD: "
      (ifd0.FindLinkedIFD 0x8825 b endian) with
  | error e => rw [hgp] at h; exact Except.noConfusion h
  | ok gps =>
  rw [hgp] at h
  dsimp only at h
  cases hin : wrapErr "Could not parse Interoperability IFD: "
      (ifd0.FindLinkedIFD 0xA005 b endian) with
  | error e => rw [hin] at h; exact Except.noConfusion h
  | ok inter =>
  rw [hin] at h
  dsimp only at h
  cases h1 : wrapErr "Could not parse 1st IFD: "
      (parseIFDAt b (u32 endian os + ifd0.rawValues.length) endian) with
  | error e => rw [h1] at h; exact Except.noConfusion h
  | ok ifd1 =>
  rw [h1] at h
  dsimp only at h
  cases h
  refine ⟨rfl, ⟨os, rfl, ?_⟩, ?_, ?_, ?_⟩
  · exact (wrapErr_ok _ _ _).mp h1
  · exact (wrapErr_ok _ _ _).mp hex
  · exact (wrapErr_ok _ _ _).mp hgp
  · exact (wrapErr_ok _ _ _).mp hin

theorem parseTIFF_ok_cases (b : Bytes) (s : APP1) (h : parseTIFF b = .ok s) :
    (∃ os, goSlice b 4 8 = .ok os ∧
        parseIFDAt b (u32 s.Endian os + s.IFD0.rawValues.length) s.Endian
          = .ok s.IFD1) ∧
    s.IFD0.FindLinkedIFD 0x8769 b s.Endian = .ok s.ExifIFD ∧
    s.IFD0.FindLinkedIFD 0x8825 b s.Endian = .ok s.GPSIFD ∧
    s.IFD0.FindLinkedIFD 0xA005 b s.Endian = .ok s.InteroperabilityIFD := by
  unfold parseTIFF at h
  cases h02 : goSlice b 0 2 with
  | error e => rw [h02] at h; exact Except.noConfusion h
  | ok hd =>
  rw [h02] at h
  dsimp only at h
  by_cases hmm : hd = [0x4d, 0x4d]
  · rw [if_pos hmm] at h
    have hc := parseTIFFWith_ok_cases b .big s h
    rw [hc.1]
    exact hc.2
  rw [if_neg hmm] at h
  by_cases hii : hd = [0x49, 0x49]
  · rw [if_pos hii] at h
    have hc := parseTIFFWith_ok_cases b .little s h
    rw [hc.1]
    exact hc.2
  rw [if_neg hii] at h
  exact Except.noConfusion h

/-! ### C1 — panic freedom of the decoder -/

/-- C1, counterexample. The claim says the decoder returns a
classified error and never panics on malformed but length-bounded
input.  The 4-byte buffer `49 49 2A 00` (valid endian marker and
version, then truncated) makes `parseTIFF` panic at the unchecked
slice `b[4:8]` instead of returning an error. -/
theorem c1_counterexample :
    parseTIFF [0x49, 0x49, 0x2a, 0x00] = .error .panic := by decide

/-- C1, amended. The decoder performs no bound check before its
slicing operations and can panic on malformed but length-bounded
input: every buffer shorter than the 2-byte endian marker makes
`parseTIFF` panic at the slice `b[0:2]`. -/
theorem c1_amended (b : Bytes) (h : b.length < 2) :
    parseTIFF b = .error .panic := by
  have hg : goSlice b 0 2 = .error .panic := by
    unfold goSlice
    rw [if_neg (by omega)]
  unfold parseTIFF
  rw [hg]

/-- C1, witness for `c1_amended` at the empty buffer. -/
theorem c1_amended_witness : parseTIFF [] = .error .panic :=
  c1_amended [] (by decide)

/-! ### C6 — directory bound checks -/

/-- C6, counterexample. The claim says `parseIFD` checks
`offset + 2 ≤ bufferLength` before reading the entry count and fails
with `TruncatedInput` when the structure does not fit.  On the empty
buffer `parseIFD` panics at the unchecked slice `b[0:2]` instead of
returning a classified error. -/
theorem c6_counterexample : parseIFD [] .little = .error .panic := by decide

/-- C6, amended. `parseIFD` performs no bound check at all: when
the declared structure does not fit in the buffer it panics at an
out-of-range slice rather than failing with a `TruncatedInput` error;
in particular every buffer shorter than the 2-byte entry count makes
it panic at `b[0:2]`. -/
theorem c6_amended (b : Bytes) (endian : ByteOrder) (h : b.length < 2) :
    parseIFD b endian = .error .panic := by
  have hg : goSlice b 0 2 = .error .panic := by
    unfold goSlice
    rw [if_neg (by omega)]
  unfold parseIFD
  rw [hg]

/-- C6, witness for `c6_amended` at a 1-byte buffer. -/
theorem c6_amended_witness : parseIFD [0] .big = .error .panic :=
  c6_amended [0] .big (by decide)

/-! ### C2 — indirect value resolution out of range -/

/-- C2, counterexample. The claim says that for an entry whose
value length exceeds 4 bytes, an `offset + length` beyond the buffer
fails with a classified `OffsetOutOfRange` error.  For the entry
`tag 0, type 3 (SHORT), count 4` (length 8) with offset `0xff` in an
empty directory buffer, `parseIFDElement` panics at the unchecked
slice `ifd[255:263]` instead of returning an error. -/
theorem c2_counterexample :
    parseIFDElement [0, 0, 3, 0, 4, 0, 0, 0, 0xff, 0, 0, 0] [] .little
      = .error .panic := by decide

/-- C2, amended. For an entry whose computed length exceeds 4,
the code slices `ifd[offset : offset + uint32(length)]` with no bound
check and `uint32` wrap-around: whenever `offset` plus the length
truncated modulo 2^32 exceeds the buffer size, `parseIFDElement`
panics (it never returns a classified error); and because the length
is truncated modulo 2^32 first, an entry of type 10 with count 2^28
(length 2^32) resolves to a silently truncated empty value instead of
failing. -/
theorem c2_amended :
    (∀ (b ifd : Bytes) (endian : ByteOrder),
        b.length = 12 →
        4 < elemLength (u16 endian ((b.drop 2).take 2))
              (u32 endian ((b.drop 4).take 4)) →
        ifd.length < u32 endian ((b.drop 8).take 4)
          + elemLength (u16 endian ((b.drop 2).take 2))
              (u32 endian ((b.drop 4).take 4)) % 4294967296 →
        parseIFDElement b ifd endian = .error .panic)
    ∧ (parseIFDElement [0, 0, 10, 0, 0, 0, 0, 0x10, 0, 0, 0, 0] [1, 2, 3]
          .little).map (fun e => e.Value) = .ok [] := by
  constructor
  · intro b ifd endian h12 hgt hoob
    unfold parseIFDElement
    rw [if_neg (by omega)]
    dsimp only
    rw [if_pos hgt]
    rw [goSlice_oob_panic ifd _ _ (Nat.mod_lt _ (by norm_num)) hoob]
  · decide

/-- C2, witness for the universal part of `c2_amended`: entry of
type 3 (SHORT) and count 4 (length 8) with offset 3 in a 3-byte
directory buffer. -/
theorem c2_amended_witness :
    parseIFDElement [0, 0, 3, 0, 4, 0, 0, 0, 3, 0, 0, 0] [1, 2, 3] .little
      = .error .panic :=
  c2_amended.1 [0, 0, 3, 0, 4, 0, 0, 0, 3, 0, 0, 0] [1, 2, 3] .little
    (by decide) (by decide) (by decide)

/-! ### C4 — the type-size table -/

/-- C4, counterexample. The claim says the value-length
computation uses the full 12-entry standard TIFF type-size table
(with DOUBLE = type 12 of size 8) and rejects unknown codes with
`UnsupportedType`.  For an entry of type 12 (DOUBLE) and count 1 the
code computes length 1, not 8. -/
theorem c4_counterexample :
    IFDElement.Length ⟨0, 12, 1, [], []⟩ = 1 ∧ (1 : Nat) ≠ 1 * 8 := by decide

/-- The type-size factors the code actually applies (named from the
amended claim): 3 → 2, 4 → 4, 5 → 8, 9 → 8, 10 → 16, and every other
type code — including BYTE, ASCII, SBYTE, UNDEFINED, SSHORT, FLOAT,
DOUBLE and unrecognized codes — 1. -/
def goTypeSize (ty : Nat) : Nat :=
  if ty = 3 then 2
  else if ty = 4 then 4
  else if ty = 5 then 8
  else if ty = 9 then 8
  else if ty = 10 then 16
  else 1

/-- C4, amended. The length computation covers only the type
codes 3 (SHORT, 2), 4 (LONG, 4), 5 (RATIONAL, 8), 9 (SLONG, 8 — not
the standard 4) and 10 (SRATIONAL, 16 — not the standard 8); every
other type code, standard or not, is treated as size 1 per count and
never rejected with an `UnsupportedType` error. -/
theorem c4_amended (e : IFDElement) : e.Length = e.Count * goTypeSize e.Typ := by
  rcases e with ⟨tag, ty, c, v, rv⟩
  dsimp only [IFDElement.Length]
  unfold elemLength goTypeSize
  split_ifs <;> omega

/-! ### C5 — inline values -/

/-- C5, counterexample. The claim says an inline value equals the
first `length` bytes of the 4-byte raw field.  For an entry of type 3
(SHORT) and count 1 — length 2 — the resolved value is the whole raw
field `AA BB CC DD`, not its first 2 bytes `AA BB`. -/
theorem c5_counterexample :
    (parseIFDElement [0, 0, 3, 0, 1, 0, 0, 0, 0xAA, 0xBB, 0xCC, 0xDD] []
        .little).map (fun e => e.Value) = .ok [0xAA, 0xBB, 0xCC, 0xDD] ∧
    ([0xAA, 0xBB, 0xCC, 0xDD] : Bytes) ≠ [0xAA, 0xBB] := by decide

/-- C5, amended. For an entry whose computed value length is at
most 4 bytes, the resolved value is the entire 4-byte raw field
(`b[8:12]` of the entry), not just its first `length` bytes; no
indirect read is attempted — the result does not depend on the
directory buffer at all. -/
theorem c5_amended (b ifd ifd2 : Bytes) (endian : ByteOrder)
    (h12 : b.length = 12)
    (hle : elemLength (u16 endian ((b.drop 2).take 2))
        (u32 endian ((b.drop 4).take 4)) ≤ 4) :
    (parseIFDElement b ifd endian).map (fun e => e.Value)
        = .ok ((b.drop 8).take 4) ∧
    parseIFDElement b ifd endian = parseIFDElement b ifd2 endian := by
  have hrun : ∀ ifd' : Bytes, parseIFDElement b ifd' endian
      = .ok ⟨u16 endian (b.take 2), u16 endian ((b.drop 2).take 2),
          u32 endian ((b.drop 4).take 4), (b.drop 8).take 4,
          (b.drop 8).take 4⟩ := by
    intro ifd'
    unfold parseIFDElement
    rw [if_neg (by omega)]
    dsimp only
    rw [if_neg (by omega)]
  rw [hrun ifd, hrun ifd2]
  exact ⟨rfl, rfl⟩

/-- C5, witness for `c5_amended`: entry of type 1 and count 2
(length 2), raw field `05 06 07 08`, against two different directory
buffers. -/
theorem c5_amended_witness :
    (parseIFDElement [1, 0, 1, 0, 2, 0, 0, 0, 5, 6, 7, 8] [] .little).map
        (fun e => e.Value) = .ok [5, 6, 7, 8] ∧
    parseIFDElement [1, 0, 1, 0, 2, 0, 0, 0, 5, 6, 7, 8] [] .little
      = parseIFDElement [1, 0, 1, 0, 2, 0, 0, 0, 5, 6, 7, 8] [9] .little :=
  c5_amended [1, 0, 1, 0, 2, 0, 0, 0, 5, 6, 7, 8] [] [9] .little
    (by decide) (by decide)

/-! ### C9 — 16-bit wrap of the directory index expressions -/

/-- C9, counterexample. The claim says that for every entry count
of 5461 or more both computed positions wrap modulo 65536 and no
longer equal `2 + 12×entryCount` (respectively `+ 4`).  At exactly
5461 the trailer start `2 + entryCount*12` evaluates to 65534, which
does not wrap and still equals the mathematical offset (only the `+4`
expressions wrap at 5461). -/
theorem c9_counterexample :
    ifdTrailerLo 5461 = 2 + 5461 * 12 ∧
    ifdValuesOffset 5461 ≠ 2 + 5461 * 12 + 4 := by decide

/-- C9, amended. The index expressions are evaluated in 16-bit
unsigned arithmetic: the trailer end and values-region positions
(`2 + entryCount*12 + 4`) wrap and differ from the mathematical
offset for every entry count ≥ 5461, the trailer start
(`2 + entryCount*12`) does so for every entry count ≥ 5462, and below
5461 all positions equal the mathematical offsets. -/
theorem c9_amended (c : Nat) :
    (5461 ≤ c → ifdValuesOffset c ≠ 2 + c * 12 + 4 ∧
        ifdTrailerHi c ≠ 2 + c * 12 + 4) ∧
    (5462 ≤ c → ifdTrailerLo c ≠ 2 + c * 12) ∧
    (c ≤ 5460 → ifdTrailerLo c = 2 + c * 12 ∧
        ifdValuesOffset c = 2 + c * 12 + 4) := by
  unfold ifdValuesOffset ifdTrailerHi ifdTrailerLo
  refine ⟨fun h => ⟨?_, ?_⟩, fun h => ?_, fun h => ⟨?_, ?_⟩⟩ <;> omega

/-- C9, witness for `c9_amended` at entry count 5462. -/
theorem c9_amended_witness :
    ifdValuesOffset 5462 ≠ 2 + 5462 * 12 + 4 ∧
    ifdTrailerLo 5462 ≠ 2 + 5462 * 12 :=
  ⟨((c9_amended 5462).1 (by decide)).1, (c9_amended 5462).2.1 (by decide)⟩

/-! ### C3 — how the second top-level directory is located -/

/-- C3, counterexample. The claim says the thumbnail (second
top-level) directory is controlled by the primary directory's 4-byte
next-directory field: decoded at that absolute offset when nonzero,
left unset when 0.  In `buf14` the 4-byte word after the primary
directory's entries (at offset 10) is 0, yet the decode succeeds with
`IFD1` set to a decoded (empty) directory: the code parses a second
directory unconditionally and never leaves it unset. -/
theorem c3_counterexample :
    parseTIFF buf14 = .ok app1_14 ∧
    u32 .little ((buf14.drop 10).take 4) = 0 := by decide

/-- C3, amended. On every successful decode, the second top-level
directory `IFD1` is decoded unconditionally at
`firstIFDOffset + len(IFD0.rawValues)`, where `firstIFDOffset` is the
header's `uint32` at `b[4:8]` and `rawValues` has the length given by
the `uint32` read at the primary directory's trailer position
(interpreted as a values-region size, not as a next-directory
offset); a zero trailer word does not leave the thumbnail unset. -/
theorem c3_amended (b : Bytes) (s : APP1) (os : Bytes)
    (h : parseTIFF b = .ok s) (hos : goSlice b 4 8 = .ok os) :
    parseIFDAt b (u32 s.Endian os + s.IFD0.rawValues.length) s.Endian
      = .ok s.IFD1 := by
  obtain ⟨⟨os2, hos2, hifd1⟩, -, -, -⟩ := parseTIFF_ok_cases b s h
  rw [hos] at hos2
  cases hos2
  exact hifd1

/-- C3, witness for `c3_amended` at `buf14`. -/
theorem c3_amended_witness :
    parseIFDAt buf14
        (u32 app1_14.Endian [8, 0, 0, 0] + app1_14.IFD0.rawValues.length)
        app1_14.Endian = .ok app1_14.IFD1 :=
  c3_amended buf14 app1_14 [8, 0, 0, 0] (by decide) (by decide)

/-! ### C8 — missing pointer tags are not an error -/

theorem findLinkedLoop_none (es : List IFDElement) (tag : Nat) (b : Bytes)
    (endian : ByteOrder) (hno : ∀ e ∈ es, e.Tag ≠ tag) :
    findLinkedLoop es tag b endian = .ok none := by
  induction es with
  | nil => rfl
  | cons e rest ih =>
    unfold findLinkedLoop
    rw [if_neg (hno e (by simp))]
    exact ih (fun x hx => hno x (by simp [hx]))

theorem FindLinkedIFD_ok_none (d : IFD) (tag : Nat) (b : Bytes)
    (endian : ByteOrder) (hno : ∀ e ∈ d.Elements, e.Tag ≠ tag) :
    d.FindLinkedIFD tag b endian = .ok none :=
  findLinkedLoop_none d.Elements tag b endian hno

/-- C8. On every successful decode whose primary directory has no
entry with tag `0x8769`, `0x8825` or `0xA005`, the corresponding
Exif / GPS / Interoperability field of the document is unset; the
lookup returns `nil` with no error, so the missing tag never causes
the decode to fail. -/
theorem c8_missing_pointer_tags (b : Bytes) (s : APP1)
    (h : parseTIFF b = .ok s) :
    ((∀ e ∈ s.IFD0.Elements, e.Tag ≠ 0x8769) → s.ExifIFD = none) ∧
    ((∀ e ∈ s.IFD0.Elements, e.Tag ≠ 0x8825) → s.GPSIFD = none) ∧
    ((∀ e ∈ s.IFD0.Elements, e.Tag ≠ 0xA005) → s.InteroperabilityIFD = none) := by
  obtain ⟨-, hex, hgp, hin⟩ := parseTIFF_ok_cases b s h
  refine ⟨fun hno => ?_, fun hno => ?_, fun hno => ?_⟩
  · have hn := FindLinkedIFD_ok_none s.IFD0 0x8769 b s.Endian hno
    exact Except.ok.inj (hex.symm.trans hn)
  · have hn := FindLinkedIFD_ok_none s.IFD0 0x8825 b s.Endian hno
    exact Except.ok.inj (hgp.symm.trans hn)
  · have hn := FindLinkedIFD_ok_none s.IFD0 0xA005 b s.Endian hno
    exact Except.ok.inj (hin.symm.trans hn)

/-- C8, witness for `c8_missing_pointer_tags` at `buf14`, whose
primary directory is empty. -/
theorem c8_witness :
    app1_14.ExifIFD = none ∧ app1_14.GPSIFD = none ∧
    app1_14.InteroperabilityIFD = none := by
  obtain ⟨h1, h2, h3⟩ := c8_missing_pointer_tags buf14 app1_14 (by decide)
  exact ⟨h1 (by decide), h2 (by decide), h3 (by decide)⟩

/-! ### C10 — first matching entry wins -/

theorem findLinkedLoop_skip (x : IFDElement) (rest : List IFDElement)
    (tag : Nat) (b : Bytes) (endian : ByteOrder) (hx : x.Tag ≠ tag) :
    findLinkedLoop (x :: rest) tag b endian = findLinkedLoop rest tag b endian := by
  simp only [findLinkedLoop]
  rw [if_neg hx]

theorem findLinkedLoop_found (e : IFDElement) (rest : List IFDElement)
    (tag : Nat) (b : Bytes) (endian : ByteOrder) (he : e.Tag = tag) :
    findLinkedLoop (e :: rest) tag b endian
      = match parseIFDAt b (e.Uint32 endian) endian with
        | .error err => .error err
        | .ok d => .ok (some d) := by
  simp only [findLinkedLoop]
  rw [if_pos he]

/-- C10. `FindLinkedIFD` follows the first entry in on-disk order
whose tag matches and ignores every later entry: with no match among
`xs` and a match `e`, the lookup on `xs ++ e :: ys` equals the lookup
on the single-entry directory `[e]`, whatever `ys` (and the raw
values) are. -/
theorem c10_first_match (xs ys : List IFDElement) (e : IFDElement)
    (rv rv2 : Bytes) (tag : Nat) (b : Bytes) (endian : ByteOrder)
    (hxs : ∀ x ∈ xs, x.Tag ≠ tag) (he : e.Tag = tag) :
    IFD.FindLinkedIFD ⟨xs ++ e :: ys, rv⟩ tag b endian
      = IFD.FindLinkedIFD ⟨[e], rv2⟩ tag b endian := by
  show findLinkedLoop (xs ++ e :: ys) tag b endian
      = findLinkedLoop [e] tag b endian
  induction xs with
  | nil =>
    rw [List.nil_append, findLinkedLoop_found e ys tag b endian he,
      findLinkedLoop_found e [] tag b endian he]
  | cons x xs ih =>
    rw [List.cons_append,
      findLinkedLoop_skip x (xs ++ e :: ys) tag b endian (hxs x (by simp))]
    exact ih (fun y hy => hxs y (by simp [hy]))

/-- C10, witness for `c10_first_match`: a directory with a
non-matching entry, then a matching entry with offset field 0, then a
duplicate of the matching tag with a different offset field. -/
theorem c10_first_match_witness :
    IFD.FindLinkedIFD
        ⟨[⟨1, 0, 0, [], []⟩, ⟨0x8769, 4, 1, [], [0, 0, 0, 0]⟩,
          ⟨0x8769, 4, 1, [], [9, 9, 9, 9]⟩], []⟩ 0x8769 [] .little
      = IFD.FindLinkedIFD ⟨[⟨0x8769, 4, 1, [], [0, 0, 0, 0]⟩], [5]⟩
          0x8769 [] .little :=
  c10_first_match [⟨1, 0, 0, [], []⟩] [⟨0x8769, 4, 1, [], [9, 9, 9, 9]⟩]
    ⟨0x8769, 4, 1, [], [0, 0, 0, 0]⟩ [] [5] 0x8769 [] .little
    (by decide) (by decide)

/-! ### C7 — the length of the TIFF payload -/

/-- C7, counterexample. The claim says the TIFF payload handed to
the TIFF parser has length `declared − 2 − 6 = declared − 8`.  For an
APP1 segment declaring length `0x14` (20), the code reads a 10-byte
payload (`declared − 10`), not the 12 bytes the claim predicts. -/
theorem c7_counterexample :
    parseAPP1Payload ([0xff, 0xe1, 0x00, 0x14] ++ exifMarker
        ++ List.replicate 10 0) = .ok (List.replicate 10 0) ∧
    (List.replicate 10 0 : Bytes).length ≠ 0x14 - 8 := by decide

theorem readBytes_ok (n : Nat) (s : Bytes) (p : Bytes × Bytes)
    (h : readBytes n s = .ok p) :
    p.1 = s.take n ∧ p.2 = s.drop n ∧ n ≤ s.length := by
  unfold readBytes at h
  split at h
  · cases h
    exact ⟨rfl, rfl, by assumption⟩
  · exact Except.noConfusion h

/-- C7, amended. The TIFF payload handed to the TIFF parser has
length `declared − 10` (with `uint16` wrap-around), i.e. the code
subtracts the 2 length bytes, the 6 identifier bytes *and* the 2
marker bytes from the declared big-endian segment length, reading
2 fewer bytes than `declared − 8`. -/
theorem c7_amended (s tb : Bytes) (h : parseAPP1Payload s = .ok tb) :
    tb.length = (u16 .big ((s.drop 2).take 2) + 65536 - 10) % 65536 := by
  unfold parseAPP1Payload at h
  cases hr1 : readBytes 2 s with
  | error e => rw [hr1] at h; exact Except.noConfusion h
  | ok p1 =>
  obtain ⟨m, s1⟩ := p1
  rw [hr1] at h
  dsimp only at h
  by_cases hm : m ≠ [0xff, 0xe1]
  · rw [if_pos hm] at h; exact Except.noConfusion h
  rw [if_neg hm] at h
  cases hr2 : readBytes 2 s1 with
  | error e => rw [hr2] at h; exact Except.noConfusion h
  | ok p2 =>
  obtain ⟨lb, s2⟩ := p2
  rw [hr2] at h
  dsimp only at h
  cases hr3 : readBytes 6 s2 with
  | error e => rw [hr3] at h; exact Except.noConfusion h
  | ok p3 =>
  obtain ⟨em, s3⟩ := p3
  rw [hr3] at h
  dsimp only at h
  by_cases hem : em ≠ exifMarker
  · rw [if_pos hem] at h; exact Except.noConfusion h
  rw [if_neg hem] at h
  cases hr4 : readBytes ((u16 .big lb + 65536 - 10) % 65536) s3 with
  | error e => rw [hr4] at h; exact Except.noConfusion h
  | ok p4 =>
  obtain ⟨tb2, rest⟩ := p4
  rw [hr4] at h
  dsimp only at h
  cases h
  obtain ⟨h41, -, h43⟩ := readBytes_ok _ _ _ hr4
  obtain ⟨-, h22, -⟩ := readBytes_ok _ _ _ hr1
  obtain ⟨h31, -, -⟩ := readBytes_ok _ _ _ hr2
  dsimp only at h41 h31 h22
  subst h22
  subst h31
  rw [h41, List.length_take]
  omega

/-- C7, witness for `c7_amended` at the declared length `0x14`
segment: the payload has length `(20 + 65536 − 10) % 65536 = 10`. -/
theorem c7_amended_witness :
    (List.replicate 10 0 : Bytes).length
      = (u16 .big ((([0xff, 0xe1, 0x00, 0x14] ++ exifMarker
            ++ List.replicate 10 0 : Bytes).drop 2).take 2) + 65536 - 10)
          % 65536 :=
  c7_amended ([0xff, 0xe1, 0x00, 0x14] ++ exifMarker ++ List.replicate 10 0)
    (List.replicate 10 0) (by decide)
